import Mathlib

/-!
Verification of the two scripts of this repository,
`src/openai_agent.py` and
`src/projects/reasoning/bioagents/agents/openai_agent.py`,
against their natural-language specification.

Each script performs a single linear sequence: load the environment
(`load_dotenv()` merges the optional local `.env` file into the process
environment), read `API_KEY` with `os.getenv`, construct an `OpenAI`
client with that key, issue one chat-completion request with a
hard-coded model and a single user message, and print the first
choice's message content.

The embedding makes the two external effects explicit parameters:
the process environment (a map from variable names to values, already
merged with the `.env` file) and the remote chat-completion endpoint
(a function from the authenticating key and the request payload to
either a raised error or a completion object).  A run of a script
returns the list of network requests it issued, everything it wrote to
standard output, and whether it exited normally or died on an uncaught
error.
-/

/-- The process environment after `load_dotenv()` has merged the optional
local `.env` file: a map from variable names to values, `none` meaning
the variable is absent. -/
abbrev Env := String → Option String

/-- One message of the request payload: the role/content pair
(`{"role": ..., "content": ...}` in the scripts). -/
structure Message where
  role : String
  content : String
deriving DecidableEq, Repr

/-- The chat-completion request payload sent by
`client.chat.completions.create`: a model identifier and a list of
messages. -/
structure Request where
  model : String
  messages : List Message
deriving DecidableEq, Repr

/-- The message object carried by one completion choice; the scripts
read only its `content` field. -/
structure CompletionMessage where
  content : String
deriving DecidableEq, Repr

/-- One choice of a completion response (`completion.choices[i]`). -/
structure Choice where
  message : CompletionMessage
deriving DecidableEq, Repr

/-- The response object of `client.chat.completions.create`: a list of
choices. -/
structure Completion where
  choices : List Choice
deriving DecidableEq, Repr

/-- The remote chat-completion endpoint: given the key the client
authenticates with and the request payload, it either raises an error
(network failure, invalid key, rate limiting, model unavailability, all
represented by the raised error's text) or returns a completion. -/
abbrev Endpoint := String → Request → Except String Completion

/-- How a run of a script terminates: normal exit (status 0) or death
on an uncaught error (non-zero status), carrying the error's text. -/
inductive Outcome where
  | success : Outcome
  | uncaught : String → Outcome
deriving DecidableEq, Repr

/-- The observable behaviour of one run of a script: the network
requests issued in order, everything written to standard output, and
how the process terminated. -/
structure RunResult where
  requests : List Request
  stdout : String
  outcome : Outcome
deriving DecidableEq, Repr

/-- The error message of the `OpenAIError` raised by the client
constructor when no key resolves. -/
def oaiKeyErrorMsg : String :=
  "The api_key client option must be set either by passing api_key to the client or by setting the OPENAI_API_KEY environment variable"

/-- The error message of the `IndexError` raised by `choices[0]` on an
empty list. -/
def indexErrorMsg : String :=
  "IndexError: list index out of range"

/-- The `OpenAI(api_key=...)` constructor of the third-party client
library (the library's source is not part of this repository; this
models its documented behaviour): a `None` key argument falls back to
the `OPENAI_API_KEY` environment variable, and if neither supplies a
key the constructor raises `OpenAIError` before any network activity;
otherwise the client holds the resolved key. -/
def OpenAIConstructor (api_key : Option String) (env : Env) : Except String String :=
  match api_key with
  | some k => Except.ok k
  | none =>
    match env "OPENAI_API_KEY" with
    | some k => Except.ok k
    | none => Except.error oaiKeyErrorMsg

/-- The request payload built by `src/openai_agent.py`. -/
def reqCapital : Request :=
  ⟨"gpt-4.1-mini", [⟨"user", "What is the capital of France?"⟩]⟩

/-- The request payload built by
`src/projects/reasoning/bioagents/agents/openai_agent.py`. -/
def reqEssay : Request :=
  ⟨"gpt-4.1-mini", [⟨"user", "Write me a one paragraph essay on World War II."⟩]⟩

/-- `src/openai_agent.py`, top to bottom: `load_dotenv()` (absorbed into
`env`), `API_KEY = os.getenv("API_KEY")`, `client = OpenAI(api_key=API_KEY)`,
one `client.chat.completions.create` call with model `"gpt-4.1-mini"` and
the single user message `"What is the capital of France?"`, then
`print(completion.choices[0].message.content)`. -/
def openai_agent (env : Env) (net : Endpoint) : RunResult :=
  let API_KEY := env "API_KEY"
  match OpenAIConstructor API_KEY env with
  | Except.error e => ⟨[], "", Outcome.uncaught e⟩
  | Except.ok key =>
    match net key reqCapital with
    | Except.error e => ⟨[reqCapital], "", Outcome.uncaught e⟩
    | Except.ok completion =>
      match completion.choices.get? 0 with
      | none => ⟨[reqCapital], "", Outcome.uncaught indexErrorMsg⟩
      | some choice => ⟨[reqCapital], choice.message.content ++ "\n", Outcome.success⟩

/-- `src/projects/reasoning/bioagents/agents/openai_agent.py`, top to
bottom: identical to `src/openai_agent.py` except that the user
message's content literal is
`"Write me a one paragraph essay on World War II."`. -/
def bioagents_openai_agent (env : Env) (net : Endpoint) : RunResult :=
  let API_KEY := env "API_KEY"
  match OpenAIConstructor API_KEY env with
  | Except.error e => ⟨[], "", Outcome.uncaught e⟩
  | Except.ok key =>
    match net key reqEssay with
    | Except.error e => ⟨[reqEssay], "", Outcome.uncaught e⟩
    | Except.ok completion =>
      match completion.choices.get? 0 with
      | none => ⟨[reqEssay], "", Outcome.uncaught indexErrorMsg⟩
      | some choice => ⟨[reqEssay], choice.message.content ++ "\n", Outcome.success⟩

/-- The request payload both files build around their prompt literal: the
model identifier `"gpt-4.1-mini"` and one user-role message. -/
def reqPrompt (prompt : String) : Request :=
  ⟨"gpt-4.1-mini", [⟨"user", prompt⟩]⟩

/-- The common behaviour the spec ascribes to both files, parameterized
by the one thing it says differs, the literal prompt string: load the
environment, construct the client, issue one request for model
`"gpt-4.1-mini"` with a single user message carrying the prompt, print
the first choice's message content. -/
def agentScript (prompt : String) (env : Env) (net : Endpoint) : RunResult :=
  let API_KEY := env "API_KEY"
  match OpenAIConstructor API_KEY env with
  | Except.error e => ⟨[], "", Outcome.uncaught e⟩
  | Except.ok key =>
    let req : Request := reqPrompt prompt
    match net key req with
    | Except.error e => ⟨[req], "", Outcome.uncaught e⟩
    | Except.ok completion =>
      match completion.choices.get? 0 with
      | none => ⟨[req], "", Outcome.uncaught indexErrorMsg⟩
      | some choice => ⟨[req], choice.message.content ++ "\n", Outcome.success⟩

/-- Whether the character list `p` is an initial segment of `l`. -/
def charsStartWith : List Char → List Char → Bool
  | [], _ => true
  | _ :: _, [] => false
  | a :: p, b :: l => a == b && charsStartWith p l

/-- Whether the character list `p` occurs contiguously inside `l`. -/
def charsOccur (p : List Char) : List Char → Bool
  | [] => charsStartWith p []
  | b :: l => charsStartWith p (b :: l) || charsOccur p l

/-- Whether an error message references the credential (the string
`api_key` occurs in it). -/
def mentionsApiKey (s : String) : Bool :=
  charsOccur "api_key".toList s.toList

/-- An environment with no variables set at all. -/
def envEmpty : Env := fun _ => none

/-- An environment where `API_KEY` is absent but the client library's
fallback variable `OPENAI_API_KEY` is set. -/
def envFallbackOnly : Env :=
  fun v => if v = "OPENAI_API_KEY" then some "sk-fallback" else none

/-- An environment where `API_KEY` is set. -/
def envWithKey : Env :=
  fun v => if v = "API_KEY" then some "sk-test-key" else none

/-- An endpoint that answers every request with a single-choice
completion whose message content is `"Paris."`. -/
def netParis : Endpoint :=
  fun _ _ => Except.ok ⟨[⟨⟨"Paris."⟩⟩]⟩

/-- An endpoint that raises on every request. -/
def netRaise : Endpoint :=
  fun _ _ => Except.error "APIConnectionError: Connection error."

/-- An endpoint that answers every request with a completion whose
choices list is empty. -/
def netNoChoices : Endpoint :=
  fun _ _ => Except.ok ⟨[]⟩

/-- An endpoint that answers every request with a two-choice completion,
first choice content `"Paris."`, second `"Lyon."`. -/
def netParisTwo : Endpoint :=
  fun _ _ => Except.ok ⟨[⟨⟨"Paris."⟩⟩, ⟨⟨"Lyon."⟩⟩]⟩

/-! Helper lemmas: both files are instances of the parameterized script,
and a run of the script is fully determined by the constructor outcome,
the endpoint answer and the first choice. -/

theorem openai_agent_as_script (env : Env) (net : Endpoint) :
    openai_agent env net = agentScript "What is the capital of France?" env net := rfl

theorem bioagents_openai_agent_as_script (env : Env) (net : Endpoint) :
    bioagents_openai_agent env net = agentScript "Write me a one paragraph essay on World War II." env net := rfl

theorem agentScript_construct_error (prompt : String) (env : Env) (net : Endpoint)
    (e : String) (h : OpenAIConstructor (env "API_KEY") env = Except.error e) :
    agentScript prompt env net = ⟨[], "", Outcome.uncaught e⟩ := by
  simp only [agentScript]
  rw [h]

theorem agentScript_net_error (prompt : String) (env : Env) (net : Endpoint)
    (k e : String)
    (hk : OpenAIConstructor (env "API_KEY") env = Except.ok k)
    (hn : net k (reqPrompt prompt) = Except.error e) :
    agentScript prompt env net = ⟨[reqPrompt prompt], "", Outcome.uncaught e⟩ := by
  simp only [agentScript]
  rw [hk]
  dsimp only
  rw [hn]

theorem agentScript_no_choice (prompt : String) (env : Env) (net : Endpoint)
    (k : String) (comp : Completion)
    (hk : OpenAIConstructor (env "API_KEY") env = Except.ok k)
    (hn : net k (reqPrompt prompt) = Except.ok comp)
    (hc : comp.choices.get? 0 = none) :
    agentScript prompt env net = ⟨[reqPrompt prompt], "", Outcome.uncaught indexErrorMsg⟩ := by
  simp only [agentScript]
  rw [hk]
  dsimp only
  rw [hn]
  dsimp only
  rw [hc]

theorem agentScript_ok (prompt : String) (env : Env) (net : Endpoint)
    (k : String) (comp : Completion) (c : Choice)
    (hk : OpenAIConstructor (env "API_KEY") env = Except.ok k)
    (hn : net k (reqPrompt prompt) = Except.ok comp)
    (hc : comp.choices.get? 0 = some c) :
    agentScript prompt env net = ⟨[reqPrompt prompt], c.message.content ++ "\n", Outcome.success⟩ := by
  simp only [agentScript]
  rw [hk]
  dsimp only
  rw [hn]
  dsimp only
  rw [hc]

theorem agentScript_requests_nil_or (prompt : String) (env : Env) (net : Endpoint) :
    (agentScript prompt env net).requests = [] ∨
    (agentScript prompt env net).requests = [reqPrompt prompt] := by
  simp only [agentScript]
  split
  · exact Or.inl rfl
  · split
    · exact Or.inr rfl
    · split
      · exact Or.inr rfl
      · exact Or.inr rfl

/-- Claim C1 counterexample: with the environment variable `API_KEY`
absent but the client library's fallback variable `OPENAI_API_KEY`
present, the chat-completion request IS issued and the run succeeds, so
the process does not fail before making a network call. -/
theorem c1_counterexample :
    envFallbackOnly "API_KEY" = none ∧
    (openai_agent envFallbackOnly netParis).requests = [reqCapital] ∧
    (openai_agent envFallbackOnly netParis).outcome = Outcome.success := by
  decide

/-- Claim C1, amended: for every run in which both `API_KEY` and the
client library's fallback variable `OPENAI_API_KEY` are absent, the
process fails at client construction before making any network call:
no request is issued, and the raised error references the missing
credential. -/
theorem c1_missing_key_fails_before_call (env : Env) (net : Endpoint)
    (h1 : env "API_KEY" = none) (h2 : env "OPENAI_API_KEY" = none) :
    (openai_agent env net).requests = [] ∧
    (openai_agent env net).outcome = Outcome.uncaught oaiKeyErrorMsg ∧
    mentionsApiKey oaiKeyErrorMsg = true := by
  have hc : OpenAIConstructor (env "API_KEY") env = Except.error oaiKeyErrorMsg := by
    rw [h1]
    simp only [OpenAIConstructor]
    rw [h2]
  have h := agentScript_construct_error "What is the capital of France?" env net _ hc
  rw [openai_agent_as_script, h]
  exact ⟨rfl, rfl, by decide⟩

/-- Witness for the amended claim C1 at a concrete empty environment. -/
theorem c1_missing_key_fails_before_call_witness :
    (openai_agent envEmpty netParis).requests = [] ∧
    (openai_agent envEmpty netParis).outcome = Outcome.uncaught oaiKeyErrorMsg ∧
    mentionsApiKey oaiKeyErrorMsg = true :=
  c1_missing_key_fails_before_call envEmpty netParis rfl rfl

/-- Claim C2: every request either script issues carries the model
identifier `"gpt-4.1-mini"` and exactly one message, of role `"user"`
and content the literal prompt string of that script. -/
theorem c2_request_payload (env : Env) (net : Endpoint) :
    (∀ r ∈ (openai_agent env net).requests,
        r.model = "gpt-4.1-mini" ∧
        r.messages = [⟨"user", "What is the capital of France?"⟩]) ∧
    (∀ r ∈ (bioagents_openai_agent env net).requests,
        r.model = "gpt-4.1-mini" ∧
        r.messages = [⟨"user", "Write me a one paragraph essay on World War II."⟩]) := by
  constructor
  · intro r hr
    rw [openai_agent_as_script] at hr
    rcases agentScript_requests_nil_or "What is the capital of France?" env net with h | h <;>
      rw [h] at hr <;> simp at hr
    subst hr
    exact ⟨rfl, rfl⟩
  · intro r hr
    rw [bioagents_openai_agent_as_script] at hr
    rcases agentScript_requests_nil_or "Write me a one paragraph essay on World War II." env net with h | h <;>
      rw [h] at hr <;> simp at hr
    subst hr
    exact ⟨rfl, rfl⟩

/-- Witness for claim C2 at a concrete run that does issue a request. -/
theorem c2_request_payload_witness :
    reqCapital.model = "gpt-4.1-mini" ∧
    reqCapital.messages = [⟨"user", "What is the capital of France?"⟩] :=
  (c2_request_payload envWithKey netParis).1 reqCapital (by decide)

/-- Claim C3: when the completion call returns a response whose first
choice's message content is `"Paris."`, the run writes exactly
`"Paris."` followed by a newline to standard output, nothing else, and
exits with status 0. -/
theorem c3_prints_paris (env : Env) (net : Endpoint) (k : String)
    (comp : Completion) (c : Choice)
    (hk : OpenAIConstructor (env "API_KEY") env = Except.ok k)
    (hn : net k reqCapital = Except.ok comp)
    (hc : comp.choices.get? 0 = some c)
    (hparis : c.message.content = "Paris.") :
    (openai_agent env net).stdout = "Paris." ++ "\n" ∧
    (openai_agent env net).outcome = Outcome.success := by
  have h := agentScript_ok "What is the capital of France?" env net k comp c hk hn hc
  rw [openai_agent_as_script, h, hparis]
  exact ⟨rfl, rfl⟩

/-- Witness for claim C3 at a concrete environment and endpoint. -/
theorem c3_prints_paris_witness :
    (openai_agent envWithKey netParis).stdout = "Paris." ++ "\n" ∧
    (openai_agent envWithKey netParis).outcome = Outcome.success :=
  c3_prints_paris envWithKey netParis "sk-test-key" ⟨[⟨⟨"Paris."⟩⟩]⟩ ⟨⟨"Paris."⟩⟩
    rfl rfl rfl rfl

/-- Claim C4: when the client raises during the completion call, the
run terminates on that uncaught error (non-zero status) and writes
nothing at all to standard output. -/
theorem c4_call_error_propagates (env : Env) (net : Endpoint) (k e : String)
    (hk : OpenAIConstructor (env "API_KEY") env = Except.ok k)
    (hn : net k reqCapital = Except.error e) :
    (openai_agent env net).stdout = "" ∧
    (openai_agent env net).outcome = Outcome.uncaught e := by
  have h := agentScript_net_error "What is the capital of France?" env net k e hk hn
  rw [openai_agent_as_script, h]
  exact ⟨rfl, rfl⟩

/-- Witness for claim C4 at a concrete raising endpoint. -/
theorem c4_call_error_propagates_witness :
    (openai_agent envWithKey netRaise).stdout = "" ∧
    (openai_agent envWithKey netRaise).outcome =
      Outcome.uncaught "APIConnectionError: Connection error." :=
  c4_call_error_propagates envWithKey netRaise "sk-test-key"
    "APIConnectionError: Connection error." rfl rfl

/-- Claim C5 counterexample: with every environment variable absent the
run fails although no downstream call is ever made (the request list is
empty and the endpoint was never consulted), so the failure does not
surface at authentication time of the downstream client call. -/
theorem c5_counterexample :
    envEmpty "API_KEY" = none ∧
    (openai_agent envEmpty netParis).requests = [] ∧
    (openai_agent envEmpty netParis).outcome = Outcome.uncaught oaiKeyErrorMsg := by
  decide

/-- Claim C5, amended: the script performs no local validation of the
key and no fallback of its own; when `API_KEY` is absent, the client
library itself fails at construction time, before any network call,
unless its own `OPENAI_API_KEY` fallback supplies a key, in which case
the call is made and any error it raises (such as an authentication
failure) propagates uncaught. -/
theorem c5_no_local_validation (env : Env) (net : Endpoint)
    (h1 : env "API_KEY" = none) :
    (env "OPENAI_API_KEY" = none →
      (openai_agent env net).requests = [] ∧
      (openai_agent env net).outcome = Outcome.uncaught oaiKeyErrorMsg) ∧
    (∀ k, env "OPENAI_API_KEY" = some k →
      ∀ e, net k reqCapital = Except.error e →
        (openai_agent env net).requests = [reqCapital] ∧
        (openai_agent env net).outcome = Outcome.uncaught e) := by
  constructor
  · intro h2
    have hc : OpenAIConstructor (env "API_KEY") env = Except.error oaiKeyErrorMsg := by
      rw [h1]
      simp only [OpenAIConstructor]
      rw [h2]
    have h := agentScript_construct_error "What is the capital of France?" env net _ hc
    rw [openai_agent_as_script, h]
    exact ⟨rfl, rfl⟩
  · intro k h2 e hn
    have hc : OpenAIConstructor (env "API_KEY") env = Except.ok k := by
      rw [h1]
      simp only [OpenAIConstructor]
      rw [h2]
    have h := agentScript_net_error "What is the capital of France?" env net k e hc hn
    rw [openai_agent_as_script, h]
    exact ⟨rfl, rfl⟩

/-- Witness for the amended claim C5 at a concrete environment whose
only variable is the library fallback, with a raising endpoint. -/
theorem c5_no_local_validation_witness :
    (envFallbackOnly "OPENAI_API_KEY" = none →
      (openai_agent envFallbackOnly netRaise).requests = [] ∧
      (openai_agent envFallbackOnly netRaise).outcome = Outcome.uncaught oaiKeyErrorMsg) ∧
    (∀ k, envFallbackOnly "OPENAI_API_KEY" = some k →
      ∀ e, netRaise k reqCapital = Except.error e →
        (openai_agent envFallbackOnly netRaise).requests = [reqCapital] ∧
        (openai_agent envFallbackOnly netRaise).outcome = Outcome.uncaught e) :=
  c5_no_local_validation envFallbackOnly netRaise rfl

/-- Claim C6: whatever completion the endpoint returns, the text either
script writes to standard output is the message content of the first
choice, `choices[0].message.content`, and of no other choice (all
remaining choices are unconstrained). -/
theorem c6_prints_first_choice (env : Env) (net : Endpoint) (k : String)
    (hk : OpenAIConstructor (env "API_KEY") env = Except.ok k) :
    (∀ comp c, net k reqCapital = Except.ok comp →
      comp.choices.get? 0 = some c →
      (openai_agent env net).stdout = c.message.content ++ "\n") ∧
    (∀ comp c, net k reqEssay = Except.ok comp →
      comp.choices.get? 0 = some c →
      (bioagents_openai_agent env net).stdout = c.message.content ++ "\n") := by
  constructor
  · intro comp c hn hc
    have h := agentScript_ok "What is the capital of France?" env net k comp c hk hn hc
    rw [openai_agent_as_script, h]
  · intro comp c hn hc
    have h := agentScript_ok "Write me a one paragraph essay on World War II." env net k comp c hk hn hc
    rw [bioagents_openai_agent_as_script, h]

/-- Witness for claim C6 at a concrete two-choice response: the run
prints the first choice and ignores the second. -/
theorem c6_prints_first_choice_witness :
    (∀ comp c, netParisTwo "sk-test-key" reqCapital = Except.ok comp →
      comp.choices.get? 0 = some c →
      (openai_agent envWithKey netParisTwo).stdout = c.message.content ++ "\n") ∧
    (∀ comp c, netParisTwo "sk-test-key" reqEssay = Except.ok comp →
      comp.choices.get? 0 = some c →
      (bioagents_openai_agent envWithKey netParisTwo).stdout = c.message.content ++ "\n") :=
  c6_prints_first_choice envWithKey netParisTwo "sk-test-key" rfl

/-- Claim C7: the two scripts are behaviourally identical except for the
literal prompt string: for every environment and every endpoint, each
equals the one parameterized script instantiated at its own prompt
literal; the variable loaded, the client construction, the model, the
single user message and the printed field all coincide. -/
theorem c7_scripts_differ_only_in_prompt :
    ∀ (env : Env) (net : Endpoint),
      openai_agent env net =
        agentScript "What is the capital of France?" env net ∧
      bioagents_openai_agent env net =
        agentScript "Write me a one paragraph essay on World War II." env net :=
  fun _ _ => ⟨rfl, rfl⟩

/-- Claim C8 counterexample: a run with no key in the environment issues
zero network calls, not exactly one. -/
theorem c8_counterexample :
    (openai_agent envEmpty netParis).requests.length = 0 := by
  decide

/-- Claim C8, amended: every run issues at most one network call and
then exits, and never a second request whether the first succeeds or
fails; when client construction succeeds the run issues exactly the one
hard-coded request. -/
theorem c8_at_most_one_request (env : Env) (net : Endpoint) :
    (openai_agent env net).requests.length ≤ 1 ∧
    (∀ k, OpenAIConstructor (env "API_KEY") env = Except.ok k →
      (openai_agent env net).requests = [reqCapital]) := by
  constructor
  · rw [openai_agent_as_script]
    rcases agentScript_requests_nil_or "What is the capital of France?" env net with h | h <;>
      rw [h] <;> decide
  · intro k hk
    rw [openai_agent_as_script]
    cases hn : net k (reqPrompt "What is the capital of France?") with
    | error e =>
      rw [agentScript_net_error "What is the capital of France?" env net k e hk hn]
      exact rfl
    | ok comp =>
      cases hc : comp.choices.get? 0 with
      | none =>
        rw [agentScript_no_choice "What is the capital of France?" env net k comp hk hn hc]
        exact rfl
      | some c =>
        rw [agentScript_ok "What is the capital of France?" env net k comp c hk hn hc]
        exact rfl

/-- Witness for the amended claim C8 at a concrete successful run. -/
theorem c8_at_most_one_request_witness :
    (openai_agent envWithKey netParis).requests.length ≤ 1 ∧
    (∀ k, OpenAIConstructor (envWithKey "API_KEY") envWithKey = Except.ok k →
      (openai_agent envWithKey netParis).requests = [reqCapital]) :=
  c8_at_most_one_request envWithKey netParis

/-- Claim C9: the extraction `completion.choices[0]` is unguarded: when
the returned completion has an empty choices list the run dies on the
uncaught indexing error having printed nothing, and when the choices
list is non-empty the extraction succeeds and the run prints the first
choice's content and exits normally. -/
theorem c9_unguarded_indexing (env : Env) (net : Endpoint) (k : String)
    (comp : Completion)
    (hk : OpenAIConstructor (env "API_KEY") env = Except.ok k)
    (hn : net k reqCapital = Except.ok comp) :
    (comp.choices = [] →
      (openai_agent env net).stdout = "" ∧
      (openai_agent env net).outcome = Outcome.uncaught indexErrorMsg) ∧
    (∀ c rest, comp.choices = c :: rest →
      (openai_agent env net).stdout = c.message.content ++ "\n" ∧
      (openai_agent env net).outcome = Outcome.success) := by
  constructor
  · intro hempty
    have hc : comp.choices.get? 0 = none := by rw [hempty]; rfl
    have h := agentScript_no_choice "What is the capital of France?" env net k comp hk hn hc
    rw [openai_agent_as_script, h]
    exact ⟨rfl, rfl⟩
  · intro c rest hcons
    have hc : comp.choices.get? 0 = some c := by rw [hcons]; rfl
    have h := agentScript_ok "What is the capital of France?" env net k comp c hk hn hc
    rw [openai_agent_as_script, h]
    exact ⟨rfl, rfl⟩

/-- Witness for claim C9 at a concrete empty-choices response. -/
theorem c9_unguarded_indexing_witness :
    ((⟨[]⟩ : Completion).choices = [] →
      (openai_agent envWithKey netNoChoices).stdout = "" ∧
      (openai_agent envWithKey netNoChoices).outcome = Outcome.uncaught indexErrorMsg) ∧
    (∀ c rest, (⟨[]⟩ : Completion).choices = c :: rest →
      (openai_agent envWithKey netNoChoices).stdout = c.message.content ++ "\n" ∧
      (openai_agent envWithKey netNoChoices).outcome = Outcome.success) :=
  c9_unguarded_indexing envWithKey netNoChoices "sk-test-key" ⟨[]⟩ rfl rfl

/-- Claim C10: the printed output depends only on the content of the
first choice's message: any two completed runs, even of the two
different scripts, with different environments, keys and endpoints, and
with responses differing in every other field, write the same text to
standard output as soon as the first choices' message contents agree. -/
theorem c10_output_depends_only_on_first_content
    (env1 env2 : Env) (net1 net2 : Endpoint) (k1 k2 : String)
    (comp1 comp2 : Completion) (c1 c2 : Choice)
    (hk1 : OpenAIConstructor (env1 "API_KEY") env1 = Except.ok k1)
    (hn1 : net1 k1 reqCapital = Except.ok comp1)
    (hc1 : comp1.choices.get? 0 = some c1)
    (hk2 : OpenAIConstructor (env2 "API_KEY") env2 = Except.ok k2)
    (hn2 : net2 k2 reqEssay = Except.ok comp2)
    (hc2 : comp2.choices.get? 0 = some c2)
    (heq : c1.message.content = c2.message.content) :
    (openai_agent env1 net1).stdout = (bioagents_openai_agent env2 net2).stdout := by
  have h1 := agentScript_ok "What is the capital of France?" env1 net1 k1 comp1 c1 hk1 hn1 hc1
  have h2 := agentScript_ok "Write me a one paragraph essay on World War II." env2 net2 k2 comp2 c2 hk2 hn2 hc2
  rw [openai_agent_as_script, h1, bioagents_openai_agent_as_script, h2, heq]

/-- Witness for claim C10: two runs with different key sources and
different responses (one choice versus two) print the same text. -/
theorem c10_output_depends_only_on_first_content_witness :
    (openai_agent envWithKey netParis).stdout =
      (bioagents_openai_agent envFallbackOnly netParisTwo).stdout :=
  c10_output_depends_only_on_first_content envWithKey envFallbackOnly
    netParis netParisTwo "sk-test-key" "sk-fallback"
    ⟨[⟨⟨"Paris."⟩⟩]⟩ ⟨[⟨⟨"Paris."⟩⟩, ⟨⟨"Lyon."⟩⟩]⟩ ⟨⟨"Paris."⟩⟩ ⟨⟨"Paris."⟩⟩
    rfl rfl rfl rfl rfl rfl rfl
